import Mathlib

/-
Verification of the busy-record Flyer notebooks (prjemian/ipython_mintvm).

The repository contains two Flyer variants and a taxi/fly orchestrator:
 * MyFlyer          (notebook src/unnamed/part_000): kickoff / complete /
                    describe_collect / collect against a synApps busy record
                    and three EPICS waveform records;
 * BusyFlyerDevice  (notebook issue3.ipynb): same protocol, different step
                    order in kickoff and a different collect convention;
 * TaxiFlyScanDevice (notebook busy_fly_scan.ipynb): a two-phase plan that
                    sets a taxi busy record, waits for its completion, then
                    sets a fly busy record and waits again.

The shallow embedding below models each Python method as a Lean function on
an explicit state.  Wall-clock reads (Python time.time) are modelled by an
external clock stream (a function from a tick counter to a rational time)
together with a tick counter threaded through the state.  EPICS process
variables are fields of the state; a put is modelled as updating the local
readback value.  The ophyd DeviceStatus objects (external library, spec
section 4.3) are modelled as single-assignment futures kept in a heap
(a list), so that future identity is observable; the first resolution wins
and later resolutions are ignored.
-/

namespace Flyer

/-- A clock stream: successive wall-clock samples, indexed by a tick counter.
Each call of the Python time.time() consumes one tick. -/
abbrev Clock := Nat → ℚ

/-- A reference into the future heap (identity of a DeviceStatus object). -/
abbrev FutureRef := Nat

/-- A completion future (ophyd DeviceStatus, modelled per spec section 4.3 as
a single-assignment future: the first resolution wins). -/
structure Future where
  resolved : Bool
  success  : Bool
deriving Repr, DecidableEq

/-- Resolve a future: first resolution wins, later calls are ignored. -/
def Future.finish (f : Future) (ok : Bool) : Future :=
  if f.resolved then f else { resolved := true, success := ok }

/-- Resolve the future at reference r in a heap with success := true
(the only resolution the notebooks ever perform). -/
def resolveAt (fs : List Future) (r : FutureRef) : List Future :=
  fs.set r ((fs.getD r ⟨false, false⟩).finish true)

/-- Errors surfaced by the embedded operations.  NotArmed is the
RuntimeError("No collection in progress") of MyFlyer.complete;
IndexOutOfRange is a Python IndexError from reading a waveform past its
length; NoneStatus is the AttributeError raised when a callback fires while
the completion-status reference is None. -/
inductive Err where
  | NotArmed
  | IndexOutOfRange
  | NoneStatus
deriving Repr, DecidableEq

/-- One event record yielded by collect(): a wall-clock emission time, a
data mapping and a timestamps mapping, both keyed by channel name. -/
structure Record where
  time : ℚ
  data : List (String × ℚ)
  timestamps : List (String × ℚ)
deriving Repr, DecidableEq

/-- An EPICS waveform record as read by the notebooks: the value array and
the NORD field (number of elements read/populated). -/
structure Waveform where
  value : List ℚ
  nord  : Nat
deriving Repr, DecidableEq

/-- The externally observable steps a kickoff() performs, in order. -/
inductive ArmEvent where
  | createFuture
  | subscribeWatcher
  | captureStartTime
  | writeStart
deriving Repr, DecidableEq

/-- Python list-of-chars: does hay start with needle. -/
def startsWithChars : List Char → List Char → Bool
  | [], _ => true
  | _ :: _, [] => false
  | a :: as, b :: bs => (a = b) && startsWithChars as bs

/-- Python list-of-chars contiguous-substring test. -/
def containsChars (needle : List Char) : List Char → Bool
  | [] => startsWithChars needle []
  | b :: bs => startsWithChars needle (b :: bs) || containsChars needle bs

/-- The Python expression "a in b" for strings: a is a contiguous substring
of b.  The notebooks' callbacks test (value in (BusyStatus.done)) where
(BusyStatus.done) is not a tuple but the plain string "Done", so the test is
a substring test, not an equality or tuple-membership test. -/
def pyInStr (a b : String) : Bool := containsChars a.toList b.toList

/-- The start sentinel written to the busy record (BusyStatus.busy). -/
def busySentinel : String := "Busy"

/-- The done sentinel the watcher looks for (BusyStatus.done). -/
def doneSentinel : String := "Done"

/-! ## MyFlyer (notebook src/unnamed/part_000) -/

/-- The state of a MyFlyer device together with the external resources it
reads: the future heap, the _completion_status reference, t0, the busy
record's state string, the three waveform records, the subscription list
(each entry remembers which completion reference was current when the
subscription was made - provenance only, the callback itself always reads
the current state), the clock tick counter, and the trace of arm events. -/
structure MyFlyerState where
  futures : List Future
  completionStatus : Option FutureRef
  t0 : ℚ
  busyState : String
  tArr : Waveform
  xArr : Waveform
  yArr : Waveform
  subs : List (Option FutureRef)
  tick : Nat
  trace : List ArmEvent
deriving Repr, DecidableEq

/-- Allocate a fresh unresolved future on the heap; the reference is the
heap position. -/
def newFuture (fs : List Future) : FutureRef × List Future :=
  (fs.length, fs ++ [⟨false, false⟩])

/-- MyFlyer.kickoff(): creates a new completion status, subscribes the
watcher callback to the busy record, records the start time t0, writes the
Busy sentinel to the busy record, then creates and immediately finishes a
kickoff status which it returns.  Exactly this step order is in the source:
subscribe comes before the t0 capture and before the write. -/
def MyFlyerState.kickoff (clock : Clock) (s : MyFlyerState) :
    FutureRef × MyFlyerState :=
  let (r, fs1) := newFuture s.futures
  let s1 := { s with futures := fs1, completionStatus := some r,
                     trace := s.trace ++ [ArmEvent.createFuture] }
  let s2 := { s1 with subs := s1.subs ++ [some r],
                      trace := s1.trace ++ [ArmEvent.subscribeWatcher] }
  let s3 := { s2 with t0 := clock s2.tick, tick := s2.tick + 1,
                      trace := s2.trace ++ [ArmEvent.captureStartTime] }
  let s4 := { s3 with busyState := busySentinel,
                      trace := s3.trace ++ [ArmEvent.writeStart] }
  let (kr, fs2) := newFuture s4.futures
  (kr, { s4 with futures := resolveAt fs2 kr })

/-- The watcher callback of MyFlyer.kickoff: if the busy record's current
value is a substring of "Done" (the Python test value in (BusyStatus.done)),
it finishes the CURRENT completion status with success=True; firing with no
current completion status is a Python AttributeError. -/
def MyFlyerState.fireCb (s : MyFlyerState) : Except Err MyFlyerState :=
  if pyInStr s.busyState doneSentinel then
    match s.completionStatus with
    | none => .error .NoneStatus
    | some r => .ok { s with futures := resolveAt s.futures r }
  else
    .ok s

/-- Fire the i-th subscribed callback.  All subscriptions carry the same
closure, which reads the controller's current state, so the behaviour does
not depend on which subscription fires. -/
def MyFlyerState.fireSub (s : MyFlyerState) (i : Nat) :
    Except Err MyFlyerState :=
  if i < s.subs.length then s.fireCb else .ok s

/-- The external controller updating the busy record (value transitions are
externally driven). -/
def MyFlyerState.remoteUpdate (s : MyFlyerState) (v : String) : MyFlyerState :=
  { s with busyState := v }

/-- MyFlyer.complete(): raises RuntimeError("No collection in progress")
when _completion_status is None, otherwise returns the status object.  It
changes nothing: in particular it never unsubscribes the watcher. -/
def MyFlyerState.complete (s : MyFlyerState) :
    Except Err (FutureRef × MyFlyerState) :=
  match s.completionStatus with
  | none => .error .NotArmed
  | some r => .ok (r, s)

/-- The future stored at reference r (Python object dereference). -/
def MyFlyerState.futureAt (s : MyFlyerState) (r : FutureRef) : Future :=
  s.futures.getD r ⟨false, false⟩

/-- The loop body of MyFlyer.collect() over a list of indices: per index i
it reads tArr[i], xArr[i], yArr[i] (IndexError when any is out of range),
then builds the record dict: time=time.time() (one tick), data with
ifly_tArr = time.time() - t0 (a second tick), ifly_xArr = x, ifly_yArr = y,
and timestamps all equal to tArr[i]. -/
def myCollectGo (clock : Clock) (tw xw yw : List ℚ) (t0 : ℚ) :
    List Nat → Nat → Except Err (List Record × Nat)
  | [], tick => .ok ([], tick)
  | i :: rest, tick =>
    match tw[i]?, xw[i]?, yw[i]? with
    | some t, some x, some y =>
      let rec0 : Record :=
        { time := clock tick
          data := [("ifly_tArr", clock (tick + 1) - t0),
                   ("ifly_xArr", x), ("ifly_yArr", y)]
          timestamps := [("ifly_tArr", t), ("ifly_xArr", t),
                         ("ifly_yArr", t)] }
      match myCollectGo clock tw xw yw t0 rest (tick + 2) with
      | .ok (rs, tk) => .ok (rec0 :: rs, tk)
      | .error e => .error e
    | _, _, _ => .error .IndexOutOfRange

/-- MyFlyer.collect(): sets _completion_status to None, then yields one
record per index in range(len(tArr.wave.value)) - the time waveform's array
length, with no state check and no comparison against the other buffers'
lengths. -/
def MyFlyerState.collect (clock : Clock) (s : MyFlyerState) :
    Except Err (List Record × MyFlyerState) :=
  match myCollectGo clock s.tArr.value s.xArr.value s.yArr.value s.t0
      (List.range s.tArr.value.length) s.tick with
  | .ok (rs, tk) =>
    .ok (rs, { s with completionStatus := none, tick := tk })
  | .error e => .error e

/-! ## BusyFlyerDevice (notebook issue3.ipynb) -/

/-- The state of a BusyFlyerDevice: future heap, complete_status reference,
t0, the busy signal's string value, the time/axis/signal waveforms, the
subscription provenance list, the tick counter and the arm-event trace. -/
structure BfState where
  futures : List Future
  completeStatus : Option FutureRef
  t0 : ℚ
  busyVal : String
  timeW : Waveform
  axisW : Waveform
  signalW : Waveform
  subs : List (Option FutureRef)
  tick : Nat
  trace : List ArmEvent
deriving Repr, DecidableEq

/-- BusyFlyerDevice.kickoff(): creates a new complete_status, records t0
(one clock tick), PUTS the Busy sentinel to the busy signal, and only then
subscribes the watcher callback; finally creates and immediately finishes a
kickoff status which it returns.  Note the order: the subscription happens
after the arming write, unlike in MyFlyer. -/
def BfState.kickoff (clock : Clock) (s : BfState) : FutureRef × BfState :=
  let (r, fs1) := newFuture s.futures
  let s1 := { s with futures := fs1, completeStatus := some r,
                     trace := s.trace ++ [ArmEvent.createFuture] }
  let s2 := { s1 with t0 := clock s1.tick, tick := s1.tick + 1,
                      trace := s1.trace ++ [ArmEvent.captureStartTime] }
  let s3 := { s2 with busyVal := busySentinel,
                      trace := s2.trace ++ [ArmEvent.writeStart] }
  let s4 := { s3 with subs := s3.subs ++ [some r],
                      trace := s3.trace ++ [ArmEvent.subscribeWatcher] }
  let (kr, fs2) := newFuture s4.futures
  (kr, { s4 with futures := resolveAt fs2 kr })

/-- The watcher callback of BusyFlyerDevice.kickoff: same shape as
MyFlyer's - if the busy signal's current value is a substring of "Done" it
finishes the current complete_status with success=True. -/
def BfState.fireCb (s : BfState) : Except Err BfState :=
  if pyInStr s.busyVal doneSentinel then
    match s.completeStatus with
    | none => .error .NoneStatus
    | some r => .ok { s with futures := resolveAt s.futures r }
  else
    .ok s

/-- BusyFlyerDevice.complete(): returns self.complete_status unconditionally
- there is no None check, so with no cycle in flight it returns None
normally instead of raising. -/
def BfState.complete (s : BfState) : Except Err (Option FutureRef × BfState) :=
  .ok (s.completeStatus, s)

/-- The future stored at reference r. -/
def BfState.futureAt (s : BfState) (r : FutureRef) : Future :=
  s.futures.getD r ⟨false, false⟩

/-- The loop body of BusyFlyerDevice.collect() over a list of indices: per
index i it samples t = time.time() (one tick), reads the three waveform
values at i (IndexError when out of range), sets data[bflyer_time] to
timeW[i] - t0 and the axis/signal data verbatim, sets every timestamps
entry to the sample t, and stamps the record with a second time.time(). -/
def bfCollectGo (clock : Clock) (tw aw sw : List ℚ) (t0 : ℚ) :
    List Nat → Nat → Except Err (List Record × Nat)
  | [], tick => .ok ([], tick)
  | i :: rest, tick =>
    match tw[i]?, aw[i]?, sw[i]? with
    | some tv, some av, some sv =>
      let ts := clock tick
      let rec0 : Record :=
        { time := clock (tick + 1)
          data := [("bflyer_time", tv - t0),
                   ("bflyer_axis", av), ("bflyer_signal", sv)]
          timestamps := [("bflyer_time", ts), ("bflyer_axis", ts),
                         ("bflyer_signal", ts)] }
      match bfCollectGo clock tw aw sw t0 rest (tick + 2) with
      | .ok (rs, tk) => .ok (rec0 :: rs, tk)
      | .error e => .error e
    | _, _, _ => .error .IndexOutOfRange

/-- BusyFlyerDevice.collect(): sets complete_status to None, then yields
one record per index in range(int(self.time.number_read.value)) - the time
waveform's NORD count, with no state check and no comparison against the
other buffers' lengths. -/
def BfState.collect (clock : Clock) (s : BfState) :
    Except Err (List Record × BfState) :=
  match bfCollectGo clock s.timeW.value s.axisW.value s.signalW.value s.t0
      (List.range s.timeW.nord) s.tick with
  | .ok (rs, tk) =>
    .ok (rs, { s with completeStatus := none, tick := tk })
  | .error e => .error e

/-! ## TaxiFlyScanDevice (notebook busy_fly_scan.ipynb) -/

/-- RunEngine messages emitted by the plan: a put-complete set of a signal
to a value under a completion group, a wait on a group, or a data
collection message (never emitted by this plan, but part of the message
vocabulary a fly plan can use). -/
inductive Msg where
  | set (pv : String) (val : String) (group : Nat)
  | wait (group : Nat)
  | collectData
deriving Repr, DecidableEq

/-- The two busy signals of the device, each with its EPICS enumeration
strings (for a busy record: index 0 is Done, index 1 is Busy). -/
structure TaxiFlyScanDevice where
  taxiPV : String
  flyPV : String
  taxiEnumStrs : List String
  flyEnumStrs : List String
deriving Repr, DecidableEq

/-- bluesky.plan_stubs.mv on a put-complete signal: a set message under a
fresh completion group followed by a wait on that group. -/
def mvMsgs (pv val : String) (g : Nat) : List Msg :=
  [Msg.set pv val g, Msg.wait g]

/-- TaxiFlyScanDevice.plan(): mv the taxi signal to enum_strs[1], then mv
the fly signal to enum_strs[1].  Each mv blocks until its put completes. -/
def TaxiFlyScanDevice.plan (d : TaxiFlyScanDevice) : List Msg :=
  mvMsgs d.taxiPV (d.taxiEnumStrs.getD 1 "") 0 ++
    mvMsgs d.flyPV (d.flyEnumStrs.getD 1 "") 1

/-- The concrete device instantiated in the notebook:
TaxiFlyScanDevice("prj:tf:", name="ifly") over two busy records, whose
enumeration strings are Done (0) and Busy (1). -/
def tfDevice : TaxiFlyScanDevice :=
  { taxiPV := "prj:tf:taxi", flyPV := "prj:tf:fly",
    taxiEnumStrs := [doneSentinel, busySentinel],
    flyEnumStrs := [doneSentinel, busySentinel] }

/-- Execution state for a message sequence: the current time and the log of
writes performed, each tagged with the time at which it was issued. -/
structure RunState where
  now : ℚ
  writes : List (String × String × ℚ)
  collects : Nat
deriving Repr, DecidableEq

/-- One step of the put-complete semantics: a set issues the write at the
current time; a wait on group g blocks until the operation of group g has
completed (doneAt g), so time advances to at least doneAt g; collectData
counts a collection. -/
def stepMsg (doneAt : Nat → ℚ) (s : RunState) : Msg → RunState
  | Msg.set pv v _ => { s with writes := s.writes ++ [(pv, v, s.now)] }
  | Msg.wait g => { s with now := max s.now (doneAt g) }
  | Msg.collectData => { s with collects := s.collects + 1 }

/-- Run a message list under the put-complete semantics. -/
def runMsgs (doneAt : Nat → ℚ) (s : RunState) (msgs : List Msg) : RunState :=
  msgs.foldl (stepMsg doneAt) s

/-! ## Sample states and helper functions -/

/-- Does an Except hold a value (no exception was raised). -/
def isOkB {α : Type} : Except Err α → Bool
  | .ok _ => true
  | .error _ => false

/-- A simple concrete clock: tick n happens at time n. -/
def clock0 : Clock := fun n => (n : ℚ)

/-! ## Helper lemmas -/

theorem set_append_len {α : Type} (l : List α) (a b : α) :
    (l ++ [a]).set l.length b = l ++ [b] := by
  induction l with
  | nil => rfl
  | cons y ys ih => simp [List.set, ih]

theorem getD_append_len {α : Type} (l : List α) (a d : α) :
    (l ++ [a]).getD l.length d = a := by
  rw [List.getD_append_right l [a] d l.length le_rfl]
  simp

theorem getD_append_len0 {α : Type} (l : List α) (a b d : α) :
    (l ++ [a, b]).getD l.length d = a := by
  rw [List.getD_append_right l [a, b] d l.length le_rfl]
  simp

theorem getD_append_len1 {α : Type} (l : List α) (a b d : α) :
    (l ++ [a, b]).getD (l.length + 1) d = b := by
  have h1 : l ++ [a, b] = (l ++ [a]) ++ [b] := by simp
  have h2 : l.length + 1 = (l ++ [a]).length := by simp
  rw [h1, h2, getD_append_len]

theorem resolveAt_append_len (l : List Future) :
    resolveAt (l ++ [(⟨false, false⟩ : Future)]) l.length =
      l ++ [(⟨true, true⟩ : Future)] := by
  unfold resolveAt
  rw [getD_append_len]
  show (l ++ [(⟨false, false⟩ : Future)]).set l.length ⟨true, true⟩ =
    l ++ [(⟨true, true⟩ : Future)]
  exact set_append_len l _ _

/-- Structural description of MyFlyer.kickoff: the returned kickoff status
is a fresh already-finished future, the completion status is a fresh
unresolved future, a watcher is subscribed, t0 is sampled, the Busy
sentinel is written, and the arm events happen in the order create,
subscribe, capture, write. -/
theorem myKickoff_eq (clock : Clock) (s : MyFlyerState) :
    s.kickoff clock =
      (s.futures.length + 1,
       { s with
         futures := s.futures ++ [⟨false, false⟩, ⟨true, true⟩],
         completionStatus := some s.futures.length,
         subs := s.subs ++ [some s.futures.length],
         t0 := clock s.tick,
         busyState := busySentinel,
         tick := s.tick + 1,
         trace := s.trace ++
           [ArmEvent.createFuture, ArmEvent.subscribeWatcher,
            ArmEvent.captureStartTime, ArmEvent.writeStart] }) := by
  unfold MyFlyerState.kickoff newFuture
  dsimp only
  rw [resolveAt_append_len (s.futures ++ [(⟨false, false⟩ : Future)])]
  simp

/-- Structural description of BusyFlyerDevice.kickoff: as for MyFlyer but
the arm events happen in the order create, capture, write, subscribe. -/
theorem bfKickoff_eq (clock : Clock) (s : BfState) :
    s.kickoff clock =
      (s.futures.length + 1,
       { s with
         futures := s.futures ++ [⟨false, false⟩, ⟨true, true⟩],
         completeStatus := some s.futures.length,
         subs := s.subs ++ [some s.futures.length],
         t0 := clock s.tick,
         busyVal := busySentinel,
         tick := s.tick + 1,
         trace := s.trace ++
           [ArmEvent.createFuture, ArmEvent.captureStartTime,
            ArmEvent.writeStart, ArmEvent.subscribeWatcher] }) := by
  unfold BfState.kickoff newFuture
  dsimp only
  rw [resolveAt_append_len (s.futures ++ [(⟨false, false⟩ : Future)])]
  simp

/-- When every index is in range for all three waveforms, the MyFlyer
collect loop succeeds and yields one record per index, each carrying the
three channel names in both mappings. -/
theorem myCollectGo_ok (clock : Clock) (tw xw yw : List ℚ) (t0 : ℚ) :
    ∀ (idx : List Nat) (tick : Nat),
    (∀ i ∈ idx, i < tw.length ∧ i < xw.length ∧ i < yw.length) →
    ∃ recs tk, myCollectGo clock tw xw yw t0 idx tick = .ok (recs, tk) ∧
      recs.length = idx.length ∧
      ∀ r ∈ recs,
        r.data.map Prod.fst = ["ifly_tArr", "ifly_xArr", "ifly_yArr"] ∧
        r.timestamps.map Prod.fst = ["ifly_tArr", "ifly_xArr", "ifly_yArr"] := by
  intro idx
  induction idx with
  | nil =>
    intro tick _
    exact ⟨[], tick, rfl, rfl, by simp⟩
  | cons i rest ih =>
    intro tick hb
    obtain ⟨h1, h2, h3⟩ := hb i (List.mem_cons_self i rest)
    obtain ⟨recs, tk, hgo, hlen, hnames⟩ :=
      ih (tick + 2) (fun j hj => hb j (List.mem_cons_of_mem _ hj))
    refine ⟨{ time := clock tick,
              data := [("ifly_tArr", clock (tick + 1) - t0),
                       ("ifly_xArr", xw.get ⟨i, h2⟩),
                       ("ifly_yArr", yw.get ⟨i, h3⟩)],
              timestamps := [("ifly_tArr", tw.get ⟨i, h1⟩),
                             ("ifly_xArr", tw.get ⟨i, h1⟩),
                             ("ifly_yArr", tw.get ⟨i, h1⟩)] } :: recs, tk,
            ?_, by simp [hlen], ?_⟩
    · unfold myCollectGo
      rw [List.getElem?_eq_getElem h1, List.getElem?_eq_getElem h2,
        List.getElem?_eq_getElem h3]
      dsimp only
      rw [hgo]
      rfl
    · intro r hr
      rcases List.mem_cons.mp hr with h | h
      · subst h; exact ⟨rfl, rfl⟩
      · exact hnames r h

/-- When every index is in range for all three waveforms, the
BusyFlyerDevice collect loop succeeds and yields one record per index, each
carrying the three channel names in both mappings. -/
theorem bfCollectGo_ok (clock : Clock) (tw aw sw : List ℚ) (t0 : ℚ) :
    ∀ (idx : List Nat) (tick : Nat),
    (∀ i ∈ idx, i < tw.length ∧ i < aw.length ∧ i < sw.length) →
    ∃ recs tk, bfCollectGo clock tw aw sw t0 idx tick = .ok (recs, tk) ∧
      recs.length = idx.length ∧
      ∀ r ∈ recs,
        r.data.map Prod.fst = ["bflyer_time", "bflyer_axis", "bflyer_signal"] ∧
        r.timestamps.map Prod.fst =
          ["bflyer_time", "bflyer_axis", "bflyer_signal"] := by
  intro idx
  induction idx with
  | nil =>
    intro tick _
    exact ⟨[], tick, rfl, rfl, by simp⟩
  | cons i rest ih =>
    intro tick hb
    obtain ⟨h1, h2, h3⟩ := hb i (List.mem_cons_self i rest)
    obtain ⟨recs, tk, hgo, hlen, hnames⟩ :=
      ih (tick + 2) (fun j hj => hb j (List.mem_cons_of_mem _ hj))
    refine ⟨{ time := clock (tick + 1),
              data := [("bflyer_time", tw.get ⟨i, h1⟩ - t0),
                       ("bflyer_axis", aw.get ⟨i, h2⟩),
                       ("bflyer_signal", sw.get ⟨i, h3⟩)],
              timestamps := [("bflyer_time", clock tick),
                             ("bflyer_axis", clock tick),
                             ("bflyer_signal", clock tick)] } :: recs, tk,
            ?_, by simp [hlen], ?_⟩
    · unfold bfCollectGo
      rw [List.getElem?_eq_getElem h1, List.getElem?_eq_getElem h2,
        List.getElem?_eq_getElem h3]
      dsimp only
      rw [hgo]
      rfl
    · intro r hr
      rcases List.mem_cons.mp hr with h | h
      · subst h; exact ⟨rfl, rfl⟩
      · exact hnames r h

/-! ## Concrete sample states -/

/-- An idle MyFlyer with empty buffers. -/
def myIdleEmpty : MyFlyerState :=
  { futures := [], completionStatus := none, t0 := 0,
    busyState := doneSentinel,
    tArr := ⟨[], 0⟩, xArr := ⟨[], 0⟩, yArr := ⟨[], 0⟩,
    subs := [], tick := 0, trace := [] }

/-- An idle MyFlyer whose buffers hold two samples each. -/
def myIdleFull : MyFlyerState :=
  { futures := [], completionStatus := none, t0 := 0,
    busyState := doneSentinel,
    tArr := ⟨[1, 2], 2⟩, xArr := ⟨[10, 20], 2⟩, yArr := ⟨[100, 200], 2⟩,
    subs := [], tick := 0, trace := [] }

/-- An armed MyFlyer: one live unresolved completion future at reference 0. -/
def myArmed : MyFlyerState :=
  { futures := [⟨false, false⟩], completionStatus := some 0, t0 := 0,
    busyState := busySentinel,
    tArr := ⟨[], 0⟩, xArr := ⟨[], 0⟩, yArr := ⟨[], 0⟩,
    subs := [some 0], tick := 1, trace := [] }

/-- An armed MyFlyer whose busy record has just been set to Done by the
remote controller. -/
def myArmedDone : MyFlyerState :=
  { myArmed with busyState := doneSentinel }

/-- A MyFlyer whose time buffer is longer than its x buffer: populated
counts are t = 5, x = 3, y = 5. -/
def myShortX : MyFlyerState :=
  { futures := [], completionStatus := none, t0 := 0,
    busyState := doneSentinel,
    tArr := ⟨[1, 2, 3, 4, 5], 5⟩, xArr := ⟨[10, 20, 30], 3⟩,
    yArr := ⟨[100, 200, 300, 400, 500], 5⟩,
    subs := [], tick := 0, trace := [] }

/-- A MyFlyer in the 5, 5, 3 scenario: x and y buffers hold 5 samples, the
time buffer holds 3. -/
def my553 : MyFlyerState :=
  { futures := [], completionStatus := none, t0 := 0,
    busyState := doneSentinel,
    tArr := ⟨[1, 2, 3], 3⟩,
    xArr := ⟨[10, 20, 30, 40, 50], 5⟩,
    yArr := ⟨[100, 200, 300, 400, 500], 5⟩,
    subs := [], tick := 0, trace := [] }

/-- An idle BusyFlyerDevice with empty buffers. -/
def bfIdle : BfState :=
  { futures := [], completeStatus := none, t0 := 0,
    busyVal := doneSentinel,
    timeW := ⟨[], 0⟩, axisW := ⟨[], 0⟩, signalW := ⟨[], 0⟩,
    subs := [], tick := 0, trace := [] }

/-- A BusyFlyerDevice in the 5, 5, 3 scenario: axis and signal buffers hold
5 samples, the time buffer's populated count is 3. -/
def bf553 : BfState :=
  { futures := [], completeStatus := none, t0 := 0,
    busyVal := doneSentinel,
    timeW := ⟨[1, 2, 3], 3⟩,
    axisW := ⟨[10, 20, 30, 40, 50], 5⟩,
    signalW := ⟨[100, 200, 300, 400, 500], 5⟩,
    subs := [], tick := 0, trace := [] }

/-- An armed BusyFlyerDevice whose busy signal reads Done. -/
def bfArmedDone : BfState :=
  { futures := [⟨false, false⟩], completeStatus := some 0, t0 := 0,
    busyVal := doneSentinel,
    timeW := ⟨[], 0⟩, axisW := ⟨[], 0⟩, signalW := ⟨[], 0⟩,
    subs := [some 0], tick := 1, trace := [] }

/-- First cycle: kickoff from the empty idle MyFlyer. -/
def staleS1 : MyFlyerState := (myIdleEmpty.kickoff clock0).2

/-- First cycle drained: collect resets the completion reference. -/
def staleS2 : MyFlyerState :=
  match staleS1.collect clock0 with
  | .ok (_, s) => s
  | .error _ => staleS1

/-- Second cycle armed: the first cycle's watcher is still subscribed. -/
def staleS3 : MyFlyerState := (staleS2.kickoff clock0).2

/-- The remote controller flips the busy record to Done during the second
cycle. -/
def staleS4 : MyFlyerState := staleS3.remoteUpdate doneSentinel

/-! ## Claim theorems -/

/-- C9: TaxiFlyScanDevice.plan is strictly sequential: it writes the taxi
busy record's start sentinel at the initial time, blocks until the taxi
operation's completion time (the put-complete wait), and only then writes
the fly busy record's start sentinel - whose issue time is therefore at
least the taxi completion time; the plan performs no data collection. -/
theorem tf_plan_sequential (doneAt : Nat → ℚ) (t0 : ℚ) :
    (runMsgs doneAt ⟨t0, [], 0⟩ tfDevice.plan).writes =
      [("prj:tf:taxi", "Busy", t0),
       ("prj:tf:fly", "Busy", max t0 (doneAt 0))] ∧
    doneAt 0 ≤ max t0 (doneAt 0) ∧
    (runMsgs doneAt ⟨t0, [], 0⟩ tfDevice.plan).collects = 0 ∧
    tfDevice.plan.contains Msg.collectData = false :=
  ⟨rfl, le_max_right _ _, rfl, rfl⟩

/-- C10: kickoff() of either Flyer variant returns a status that is already
resolved with success=true at the moment of return, for every starting
state - regardless of the flag channel's value or anything the remote
controller does. -/
theorem kickoff_status_already_resolved (clock clock' : Clock)
    (s : MyFlyerState) (t : BfState) :
    ((s.kickoff clock).2).futureAt (s.kickoff clock).1 = ⟨true, true⟩ ∧
    ((t.kickoff clock').2).futureAt (t.kickoff clock').1 = ⟨true, true⟩ := by
  rw [myKickoff_eq, bfKickoff_eq]
  constructor
  · show (s.futures ++ [(⟨false, false⟩ : Future), ⟨true, true⟩]).getD
      (s.futures.length + 1) ⟨false, false⟩ = _
    rw [getD_append_len1]
  · show (t.futures ++ [(⟨false, false⟩ : Future), ⟨true, true⟩]).getD
      (t.futures.length + 1) ⟨false, false⟩ = _
    rw [getD_append_len1]

/-- C4 (amended): the two kickoff implementations perform their steps in
fixed but different orders.  MyFlyer: create the completion future,
subscribe the watcher, capture the start time, then write the start
sentinel - so its subscription does precede the write, but the capture
comes after the subscription, not before.  BusyFlyerDevice: create the
completion future, capture the start time, write the start sentinel, and
only then subscribe the watcher - the subscription follows the write. -/
theorem kickoff_step_order (clock clock' : Clock)
    (s : MyFlyerState) (t : BfState) :
    ((s.kickoff clock).2).trace =
      s.trace ++ [ArmEvent.createFuture, ArmEvent.subscribeWatcher,
                  ArmEvent.captureStartTime, ArmEvent.writeStart] ∧
    ((t.kickoff clock').2).trace =
      t.trace ++ [ArmEvent.createFuture, ArmEvent.captureStartTime,
                  ArmEvent.writeStart, ArmEvent.subscribeWatcher] := by
  rw [myKickoff_eq, bfKickoff_eq]
  exact ⟨rfl, rfl⟩

/-- C4 counterexample: BusyFlyerDevice.kickoff writes the start sentinel
before subscribing the watcher, so the claimed step order (create, capture,
subscribe, then write - with the subscription strictly preceding the
arming write) does not hold for every arm() of this code base. -/
theorem kickoff_step_order_cex :
    ((bfIdle.kickoff clock0).2).trace =
      [ArmEvent.createFuture, ArmEvent.captureStartTime,
       ArmEvent.writeStart, ArmEvent.subscribeWatcher] ∧
    [ArmEvent.createFuture, ArmEvent.captureStartTime,
     ArmEvent.writeStart, ArmEvent.subscribeWatcher] ≠
      [ArmEvent.createFuture, ArmEvent.captureStartTime,
       ArmEvent.subscribeWatcher, ArmEvent.writeStart] := by
  exact ⟨rfl, by decide⟩

/-- C7 (amended): with no cycle in flight, MyFlyer.complete() fails with
the NotArmed error (RuntimeError "No collection in progress"), but
BusyFlyerDevice.complete() has no such check: it returns the null future
reference normally. -/
theorem complete_idle_outcomes (s : MyFlyerState) (t : BfState)
    (h1 : s.completionStatus = none) (h2 : t.completeStatus = none) :
    s.complete = .error Err.NotArmed ∧ t.complete = .ok (none, t) := by
  constructor
  · unfold MyFlyerState.complete
    rw [h1]
  · unfold BfState.complete
    rw [h2]

/-- C7 witness: the idle sample states exercise both outcomes. -/
theorem complete_idle_outcomes_witness :
    myIdleEmpty.complete = .error Err.NotArmed ∧
    bfIdle.complete = .ok (none, bfIdle) :=
  complete_idle_outcomes myIdleEmpty bfIdle rfl rfl

/-- C7 counterexample: BusyFlyerDevice.complete() on an idle controller
(no cycle in flight) returns normally - the value it returns is the null
future reference - instead of failing with NotArmed. -/
theorem bf_complete_idle_cex :
    bfIdle.completeStatus = none ∧
    bfIdle.complete = .ok (none, bfIdle) ∧
    isOkB bfIdle.complete = true :=
  ⟨rfl, rfl, rfl⟩

/-- C2 (amended): a second kickoff() on an already armed controller does
not fail: it silently installs a fresh unresolved completion future as the
current one, abandoning (but not modifying) the first cycle's future. -/
theorem second_kickoff_replaces (clock : Clock) (s : MyFlyerState)
    (r : FutureRef) (h : s.completionStatus = some r)
    (hr : r < s.futures.length) :
    ((s.kickoff clock).2).completionStatus = some s.futures.length ∧
    s.futures.length ≠ r ∧
    ((s.kickoff clock).2).futureAt s.futures.length = ⟨false, false⟩ ∧
    ((s.kickoff clock).2).futureAt r = s.futureAt r := by
  rw [myKickoff_eq]
  refine ⟨rfl, Nat.ne_of_gt hr, ?_, ?_⟩
  · show (s.futures ++ [(⟨false, false⟩ : Future), ⟨true, true⟩]).getD
      s.futures.length ⟨false, false⟩ = _
    rw [getD_append_len0]
  · show (s.futures ++ [(⟨false, false⟩ : Future), ⟨true, true⟩]).getD r
      ⟨false, false⟩ = s.futures.getD r ⟨false, false⟩
    rw [List.getD_append _ _ _ _ hr]

/-- C2 witness: a concrete armed controller with live future 0. -/
theorem second_kickoff_replaces_witness :
    ((myArmed.kickoff clock0).2).completionStatus = some 1 ∧
    (1 : Nat) ≠ 0 ∧
    ((myArmed.kickoff clock0).2).futureAt 1 = ⟨false, false⟩ ∧
    ((myArmed.kickoff clock0).2).futureAt 0 = myArmed.futureAt 0 :=
  second_kickoff_replaces clock0 myArmed 0 rfl (by decide)

/-- C2 counterexample: on the armed sample controller (in-flight future 0),
a second kickoff() completes and returns an already-successful status - it
does not fail with AlreadyArmed - and the controller's current completion
reference silently changes from future 0 to the fresh future 1. -/
theorem second_kickoff_cex :
    myArmed.completionStatus = some 0 ∧
    ((myArmed.kickoff clock0).2).completionStatus = some 1 ∧
    some (1 : Nat) ≠ some (0 : Nat) ∧
    ((myArmed.kickoff clock0).2).futureAt (myArmed.kickoff clock0).1 =
      ⟨true, true⟩ := by
  refine ⟨rfl, ?_, by decide, ?_⟩
  · rw [myKickoff_eq]
    rfl
  · rw [myKickoff_eq]
    show (myArmed.futures ++ [(⟨false, false⟩ : Future), ⟨true, true⟩]).getD
      (myArmed.futures.length + 1) ⟨false, false⟩ = _
    rw [getD_append_len1]

/-- Reading back the future a resolveAt touched gives the finished form of
what was stored there. -/
theorem futureAt_resolveAt (fs : List Future) (r : FutureRef)
    (hr : r < fs.length) :
    (resolveAt fs r).getD r ⟨false, false⟩ =
      (fs.getD r ⟨false, false⟩).finish true := by
  unfold resolveAt
  have hlen : r < (fs.set r ((fs.getD r ⟨false, false⟩).finish true)).length := by
    simpa using hr
  rw [List.getD_eq_getElem _ _ hlen, List.getElem_set]
  simp

/-- The Python substring test accepts Done. -/
theorem pyInStr_done_done : pyInStr doneSentinel doneSentinel = true := by
  decide

/-- The Python substring test rejects Busy. -/
theorem pyInStr_busy_done : pyInStr busySentinel doneSentinel = false := by
  decide

/-- C3: over the busy record's state set (Busy and Done are its two
enumeration strings), the watcher callbacks of both Flyer variants resolve
the live completion future with success=true exactly when the observed
flag value is the Done sentinel, and leave the state untouched when it is
the Busy sentinel.  (In the embedding the callback's test is the Python
substring test the source performs; on this state set it coincides with
equality against Done.) -/
theorem watcher_resolves_iff_done (s : MyFlyerState) (t : BfState)
    (r q : FutureRef)
    (hs : s.completionStatus = some r) (ht : t.completeStatus = some q)
    (hr : r < s.futures.length) (hq : q < t.futures.length)
    (hsu : s.futureAt r = ⟨false, false⟩) (hqu : t.futureAt q = ⟨false, false⟩) :
    ((s.busyState = doneSentinel →
        ∃ s2, s.fireCb = .ok s2 ∧ s2.futureAt r = ⟨true, true⟩) ∧
     (s.busyState = busySentinel → s.fireCb = .ok s)) ∧
    ((t.busyVal = doneSentinel →
        ∃ t2, t.fireCb = .ok t2 ∧ t2.futureAt q = ⟨true, true⟩) ∧
     (t.busyVal = busySentinel → t.fireCb = .ok t)) := by
  refine ⟨⟨?_, ?_⟩, ⟨?_, ?_⟩⟩
  · intro hd
    refine ⟨{ s with futures := resolveAt s.futures r }, ?_, ?_⟩
    · unfold MyFlyerState.fireCb
      rw [hd, hs]
      simp [pyInStr_done_done]
    · show (resolveAt s.futures r).getD r ⟨false, false⟩ = ⟨true, true⟩
      rw [futureAt_resolveAt _ _ hr]
      have hget : s.futures.getD r ⟨false, false⟩ = ⟨false, false⟩ := hsu
      rw [hget]
      rfl
  · intro hb
    unfold MyFlyerState.fireCb
    rw [hb]
    simp [pyInStr_busy_done]
  · intro hd
    refine ⟨{ t with futures := resolveAt t.futures q }, ?_, ?_⟩
    · unfold BfState.fireCb
      rw [hd, ht]
      simp [pyInStr_done_done]
    · show (resolveAt t.futures q).getD q ⟨false, false⟩ = ⟨true, true⟩
      rw [futureAt_resolveAt _ _ hq]
      have hget : t.futures.getD q ⟨false, false⟩ = ⟨false, false⟩ := hqu
      rw [hget]
      rfl
  · intro hb
    unfold BfState.fireCb
    rw [hb]
    simp [pyInStr_busy_done]

/-- C3 witness: armed sample controllers whose flag reads Done resolve
their live futures with success. -/
theorem watcher_resolves_witness :
    (∃ s2, myArmedDone.fireCb = .ok s2 ∧ s2.futureAt 0 = ⟨true, true⟩) ∧
    (∃ t2, bfArmedDone.fireCb = .ok t2 ∧ t2.futureAt 0 = ⟨true, true⟩) := by
  have h := watcher_resolves_iff_done myArmedDone bfArmedDone 0 0
    rfl rfl (by decide) (by decide) rfl rfl
  exact ⟨h.1.1 rfl, h.2.1 rfl⟩

/-- C5 (amended): complete() neither unsubscribes the watcher nor performs
any other state change - it merely returns the live future - and firing a
subscribed callback behaves identically no matter in which cycle the
subscription was created: the callback always acts on the controller's
current completion future, with no identity check against the future that
was current at subscription time. -/
theorem complete_no_unsubscribe (s : MyFlyerState) (r : FutureRef)
    (h : s.completionStatus = some r) (i j : Nat)
    (hi : i < s.subs.length) (hj : j < s.subs.length) :
    s.complete = .ok (r, s) ∧ s.fireSub i = s.fireSub j := by
  constructor
  · unfold MyFlyerState.complete
    rw [h]
  · unfold MyFlyerState.fireSub
    rw [if_pos hi, if_pos hj]

/-- C5 witness: the twice-armed sample controller, with subscriptions from
both cycles still installed. -/
theorem complete_no_unsubscribe_witness :
    staleS3.complete = .ok (2, staleS3) ∧
    staleS3.fireSub 0 = staleS3.fireSub 1 :=
  complete_no_unsubscribe staleS3 2 (by decide) 0 1 (by decide) (by decide)

/-- C5 counterexample: run cycle one (kickoff, drain), then cycle two
(kickoff); the remote flag flips to Done and cycle ONE's still-subscribed
callback (provenance: future 0) fires.  It resolves cycle TWO's live
future 2 with success - a stale callback resolving the current cycle's
future, with no detection or discarding - while cycle one's own future 0
stays unresolved. -/
theorem stale_callback_cex :
    staleS4.subs = [some 0, some 2] ∧
    staleS4.completionStatus = some 2 ∧
    (match staleS4.fireSub 0 with
     | .ok s5 => s5.futureAt 2
     | .error _ => ⟨false, false⟩) = ⟨true, true⟩ ∧
    (match staleS4.fireSub 0 with
     | .ok s5 => s5.futureAt 0
     | .error _ => ⟨true, true⟩) = ⟨false, false⟩ ∧
    staleS3.subs = staleS4.subs := by
  refine ⟨by decide, by decide, by decide, by decide, rfl⟩

/-- C6 (amended): collect() performs no state check at all: from any state
- Completed or not - it succeeds whenever the x and y buffers are at least
as long as the time buffer, resets the completion reference to null, and
can then be called again, succeeding a second time with the same number of
records. -/
theorem collect_without_state_check (clock : Clock) (s : MyFlyerState)
    (hx : s.tArr.value.length ≤ s.xArr.value.length)
    (hy : s.tArr.value.length ≤ s.yArr.value.length) :
    ∃ recs s2 recs2 s3,
      s.collect clock = .ok (recs, s2) ∧
      s2.completionStatus = none ∧
      recs.length = s.tArr.value.length ∧
      s2.collect clock = .ok (recs2, s3) ∧
      recs2.length = s.tArr.value.length ∧
      s3.completionStatus = none := by
  obtain ⟨recs, tk, hgo, hlen, _⟩ :=
    myCollectGo_ok clock s.tArr.value s.xArr.value s.yArr.value s.t0
      (List.range s.tArr.value.length) s.tick
      (fun i hi => ⟨List.mem_range.mp hi,
        lt_of_lt_of_le (List.mem_range.mp hi) hx,
        lt_of_lt_of_le (List.mem_range.mp hi) hy⟩)
  obtain ⟨recs2, tk2, hgo2, hlen2, _⟩ :=
    myCollectGo_ok clock s.tArr.value s.xArr.value s.yArr.value s.t0
      (List.range s.tArr.value.length) tk
      (fun i hi => ⟨List.mem_range.mp hi,
        lt_of_lt_of_le (List.mem_range.mp hi) hx,
        lt_of_lt_of_le (List.mem_range.mp hi) hy⟩)
  refine ⟨recs, { s with completionStatus := none, tick := tk }, recs2,
    { s with completionStatus := none, tick := tk2 }, ?_, rfl,
    by simpa using hlen, ?_, by simpa using hlen2, rfl⟩
  · unfold MyFlyerState.collect
    rw [hgo]
  · unfold MyFlyerState.collect
    dsimp only
    rw [hgo2]

/-- C6 witness: an idle (hence not Completed) controller with two samples
per buffer: collect succeeds both times. -/
theorem collect_without_state_check_witness :
    ∃ recs s2 recs2 s3,
      myIdleFull.collect clock0 = .ok (recs, s2) ∧
      s2.completionStatus = none ∧
      recs.length = 2 ∧
      s2.collect clock0 = .ok (recs2, s3) ∧
      recs2.length = 2 ∧
      s3.completionStatus = none :=
  collect_without_state_check clock0 myIdleFull (by decide) (by decide)

/-- C6 counterexample: the idle sample controller is not in the Completed
state (its completion reference is null), yet collect() succeeds and
yields two records instead of failing with NotCompleted. -/
theorem collect_idle_succeeds_cex :
    myIdleFull.completionStatus = none ∧
    isOkB (myIdleFull.collect clock0) = true ∧
    (match myIdleFull.collect clock0 with
     | .ok (recs, _) => recs.length
     | .error _ => 0) = 2 := by
  refine ⟨rfl, rfl, by decide⟩

/-- C1 (amended): both collect() implementations iterate over the TIME
buffer's snapshot count (array length for MyFlyer, NORD for
BusyFlyerDevice), not over the minimum across all buffers.  Whenever every
other buffer is at least that long - in particular in the 5, 5, 3 scenario
where the time buffer is the shortest - this yields exactly one record per
time-buffer index, each carrying all three channel names; when another
buffer is shorter, collect instead fails with IndexOutOfRange (see the
counterexample). -/
theorem collect_truncates_to_time_buffer (clock clock' : Clock)
    (s : MyFlyerState) (t : BfState)
    (hx : s.tArr.value.length ≤ s.xArr.value.length)
    (hy : s.tArr.value.length ≤ s.yArr.value.length)
    (h1 : t.timeW.nord ≤ t.timeW.value.length)
    (h2 : t.timeW.nord ≤ t.axisW.value.length)
    (h3 : t.timeW.nord ≤ t.signalW.value.length) :
    (∃ recs s2, s.collect clock = .ok (recs, s2) ∧
       recs.length = s.tArr.value.length ∧
       ∀ r ∈ recs,
         r.data.map Prod.fst = ["ifly_tArr", "ifly_xArr", "ifly_yArr"]) ∧
    (∃ recs t2, t.collect clock' = .ok (recs, t2) ∧
       recs.length = t.timeW.nord ∧
       ∀ r ∈ recs,
         r.data.map Prod.fst = ["bflyer_time", "bflyer_axis", "bflyer_signal"]) := by
  constructor
  · obtain ⟨recs, tk, hgo, hlen, hnames⟩ :=
      myCollectGo_ok clock s.tArr.value s.xArr.value s.yArr.value s.t0
        (List.range s.tArr.value.length) s.tick
        (fun i hi => ⟨List.mem_range.mp hi,
          lt_of_lt_of_le (List.mem_range.mp hi) hx,
          lt_of_lt_of_le (List.mem_range.mp hi) hy⟩)
    refine ⟨recs, { s with completionStatus := none, tick := tk }, ?_,
      by simpa using hlen, fun r hr => (hnames r hr).1⟩
    unfold MyFlyerState.collect
    rw [hgo]
  · obtain ⟨recs, tk, hgo, hlen, hnames⟩ :=
      bfCollectGo_ok clock' t.timeW.value t.axisW.value t.signalW.value t.t0
        (List.range t.timeW.nord) t.tick
        (fun i hi => ⟨lt_of_lt_of_le (List.mem_range.mp hi) h1,
          lt_of_lt_of_le (List.mem_range.mp hi) h2,
          lt_of_lt_of_le (List.mem_range.mp hi) h3⟩)
    refine ⟨recs, { t with completeStatus := none, tick := tk }, ?_,
      by simpa using hlen, fun r hr => (hnames r hr).1⟩
    unfold BfState.collect
    rw [hgo]

/-- C1 witness: the 5, 5, 3 scenario (time buffer the shortest) on both
variants: exactly 3 records, each carrying all three channel names. -/
theorem collect_truncates_witness :
    (∃ recs s2, my553.collect clock0 = .ok (recs, s2) ∧
       recs.length = 3 ∧
       ∀ r ∈ recs,
         r.data.map Prod.fst = ["ifly_tArr", "ifly_xArr", "ifly_yArr"]) ∧
    (∃ recs t2, bf553.collect clock0 = .ok (recs, t2) ∧
       recs.length = 3 ∧
       ∀ r ∈ recs,
         r.data.map Prod.fst = ["bflyer_time", "bflyer_axis", "bflyer_signal"]) :=
  collect_truncates_to_time_buffer clock0 clock0 my553 bf553
    (by decide) (by decide) (by decide) (by decide) (by decide)

/-- C1 counterexample: buffers with populated counts t = 5, x = 3, y = 5.
The claim predicts 3 records (the minimum) and no out-of-range read; the
code iterates the time buffer's 5 indices and reads x at index 3, so
collect() raises IndexOutOfRange instead. -/
theorem collect_min_count_cex :
    myShortX.tArr.value.length = 5 ∧
    myShortX.xArr.value.length = 3 ∧
    myShortX.collect clock0 = .error Err.IndexOutOfRange :=
  ⟨rfl, rfl, rfl⟩

/-- The end-to-end scenario state for BusyFlyerDevice: armed at start time
t0 (cycle future already resolved by the watcher), buffers
x = [-1.23, 0.87, 2.97], y = [0.069, 0.274, 0.027] and
t = [t0+0.018, t0+0.019, t0+0.022], three samples each. -/
def bfC8 (t0 : ℚ) (tick : Nat) : BfState :=
  { futures := [⟨true, true⟩], completeStatus := some 0, t0 := t0,
    busyVal := doneSentinel,
    timeW := ⟨[t0 + 18/1000, t0 + 19/1000, t0 + 22/1000], 3⟩,
    axisW := ⟨[-123/100, 87/100, 297/100], 3⟩,
    signalW := ⟨[69/1000, 274/1000, 27/1000], 3⟩,
    subs := [some 0], tick := tick, trace := [] }

/-- C8 (amended): on the end-to-end scenario, BusyFlyerDevice.collect
yields exactly 3 records in index order, with the axis (x) and signal (y)
data values verbatim from the input arrays and the time data value equal
to t[i] - t0 (the variant's configured convention); the per-record
timestamps mapping carries the record's own acquisition clock sample, not
t[i]; and for any monotone clock the record emission times are
non-decreasing.  (MyFlyer's collect instead emits, as time data value, the
wall clock at emission minus t0, unrelated to the buffer - see the
counterexample.) -/
theorem bf_collect_end_to_end (clock : Clock) (t0 : ℚ) (tick : Nat)
    (hm : ∀ i j : Nat, i ≤ j → clock i ≤ clock j) :
    (bfC8 t0 tick).collect clock = .ok
      ([{ time := clock (tick + 1),
          data := [("bflyer_time", 18/1000), ("bflyer_axis", -123/100),
                   ("bflyer_signal", 69/1000)],
          timestamps := [("bflyer_time", clock tick),
                         ("bflyer_axis", clock tick),
                         ("bflyer_signal", clock tick)] },
        { time := clock (tick + 3),
          data := [("bflyer_time", 19/1000), ("bflyer_axis", 87/100),
                   ("bflyer_signal", 274/1000)],
          timestamps := [("bflyer_time", clock (tick + 2)),
                         ("bflyer_axis", clock (tick + 2)),
                         ("bflyer_signal", clock (tick + 2))] },
        { time := clock (tick + 5),
          data := [("bflyer_time", 22/1000), ("bflyer_axis", 297/100),
                   ("bflyer_signal", 27/1000)],
          timestamps := [("bflyer_time", clock (tick + 4)),
                         ("bflyer_axis", clock (tick + 4)),
                         ("bflyer_signal", clock (tick + 4))] }],
       { bfC8 t0 tick with completeStatus := none, tick := tick + 6 }) ∧
    clock (tick + 1) ≤ clock (tick + 3) ∧
    clock (tick + 3) ≤ clock (tick + 5) := by
  refine ⟨?_, hm _ _ (by omega), hm _ _ (by omega)⟩
  have hraw : (bfC8 t0 tick).collect clock = .ok
      ([{ time := clock (tick + 1),
          data := [("bflyer_time", (t0 + 18/1000) - t0),
                   ("bflyer_axis", -123/100), ("bflyer_signal", 69/1000)],
          timestamps := [("bflyer_time", clock tick),
                         ("bflyer_axis", clock tick),
                         ("bflyer_signal", clock tick)] },
        { time := clock (tick + 3),
          data := [("bflyer_time", (t0 + 19/1000) - t0),
                   ("bflyer_axis", 87/100), ("bflyer_signal", 274/1000)],
          timestamps := [("bflyer_time", clock (tick + 2)),
                         ("bflyer_axis", clock (tick + 2)),
                         ("bflyer_signal", clock (tick + 2))] },
        { time := clock (tick + 5),
          data := [("bflyer_time", (t0 + 22/1000) - t0),
                   ("bflyer_axis", 297/100), ("bflyer_signal", 27/1000)],
          timestamps := [("bflyer_time", clock (tick + 4)),
                         ("bflyer_axis", clock (tick + 4)),
                         ("bflyer_signal", clock (tick + 4))] }],
       { bfC8 t0 tick with completeStatus := none, tick := tick + 6 }) := rfl
  rw [hraw,
    show (t0 + 18/1000 : ℚ) - t0 = 18/1000 by ring,
    show (t0 + 19/1000 : ℚ) - t0 = 19/1000 by ring,
    show (t0 + 22/1000 : ℚ) - t0 = 22/1000 by ring]

/-- C8 witness: the identity clock and t0 = 0. -/
theorem bf_collect_end_to_end_witness :
    (bfC8 0 0).collect clock0 = .ok
      ([{ time := clock0 1,
          data := [("bflyer_time", 18/1000), ("bflyer_axis", -123/100),
                   ("bflyer_signal", 69/1000)],
          timestamps := [("bflyer_time", clock0 0), ("bflyer_axis", clock0 0),
                         ("bflyer_signal", clock0 0)] },
        { time := clock0 3,
          data := [("bflyer_time", 19/1000), ("bflyer_axis", 87/100),
                   ("bflyer_signal", 274/1000)],
          timestamps := [("bflyer_time", clock0 2), ("bflyer_axis", clock0 2),
                         ("bflyer_signal", clock0 2)] },
        { time := clock0 5,
          data := [("bflyer_time", 22/1000), ("bflyer_axis", 297/100),
                   ("bflyer_signal", 27/1000)],
          timestamps := [("bflyer_time", clock0 4), ("bflyer_axis", clock0 4),
                         ("bflyer_signal", clock0 4)] }],
       { bfC8 0 0 with completeStatus := none, tick := 6 }) ∧
    clock0 1 ≤ clock0 3 ∧ clock0 3 ≤ clock0 5 :=
  bf_collect_end_to_end clock0 0 0 (fun i j h => by
    show (i : ℚ) ≤ (j : ℚ)
    exact_mod_cast h)

/-- A clock that starts well after the flight data was recorded: the
drain happens late, as it does in a real run (collect only runs after the
watcher fired). -/
def clockLate : Clock := fun n => 1000 + (n : ℚ)

/-- The end-to-end scenario state for MyFlyer: t0 = 0 so that t[i] and
t[i] - t0 coincide; the time buffer holds [0.018, 0.019, 0.022]. -/
def myC8 : MyFlyerState :=
  { futures := [⟨true, true⟩], completionStatus := some 0, t0 := 0,
    busyState := doneSentinel,
    tArr := ⟨[18/1000, 19/1000, 22/1000], 3⟩,
    xArr := ⟨[-123/100, 87/100, 297/100], 3⟩,
    yArr := ⟨[69/1000, 274/1000, 27/1000], 3⟩,
    subs := [some 0], tick := 0, trace := [] }

/-- C8 counterexample: in MyFlyer.collect the time data value of the first
record is the wall clock at emission minus t0 (here 1001.0), not the
buffered t[0] = 0.018 (which, with t0 = 0, is also t[0] - t0) - so the
claim that the t data value equals t[i], or t[i] - T0, fails on this
variant. -/
theorem my_collect_tdata_cex :
    myC8.t0 = 0 ∧
    myC8.tArr.value.getD 0 0 = 18/1000 ∧
    (match myC8.collect clockLate with
     | .ok (r :: _, _) => r.data.getD 0 ("", 0)
     | _ => ("", 0)) = ("ifly_tArr", clockLate 1 - 0) ∧
    clockLate 1 - 0 = (1001 : ℚ) ∧
    (1001 : ℚ) ≠ 18/1000 := by
  refine ⟨rfl, rfl, rfl, by norm_num [clockLate], by norm_num⟩

end Flyer
